import Mathlib

/-!
Shallow embedding of the ARIA desktop supervisor core
(`src/desktop/src-tauri/src/lib.rs`) and verification of its
specification claims.

Modelling conventions:
* A `Child` process handle is identified by its pid (`Nat`).
* `std::time::Instant` values are abstract clock readings (`Nat`); uptime is
  `now - startedAt` on a monotone clock.
* JSON-carried `f64` values are passed through by the supervisor without any
  arithmetic, so they are modelled as rationals (`Rat`).
* Each network or process side effect is recorded in a trace of `Action`s in
  program order; HTTP results are supplied by a `SendResult` oracle that
  covers send failure, HTTP status, and JSON-decoding of the body.
-/

namespace Aria

/-- `f64` fields carried opaquely through JSON (no arithmetic is done on
them), modelled as rationals. -/
abbrev F64 := Rat

/-- Compile-time constant the code reads from the build environment. -/
def cargoPkgVersion : String := "CARGO_PKG_VERSION"

structure NodeStatus where
  running : Bool
  peer_count : Nat
  uptime_seconds : Nat
  version : String
  backend : String
  model : Option String
  llama_cli_available : Bool
deriving DecidableEq, Repr

structure ModelInfo where
  name : String
  params : String
  size : String
  downloaded : Bool
  description : String
deriving DecidableEq, Repr

structure DownloadProgress where
  model : String
  progress : F64
  status : String
deriving DecidableEq, Repr

structure StartNodeResult where
  status : String
  backend : String
  port : Nat
  pid : Nat
  models_available : Nat
deriving DecidableEq, Repr

structure EnergySavings where
  energy_saved_kwh : F64
  reduction_percent : F64
  co2_saved_kg : F64
  cost_saved_usd : F64
deriving DecidableEq, Repr

structure EnergyStats where
  total_inferences : Nat
  total_tokens_generated : Nat
  total_energy_kwh : F64
  avg_energy_per_token_mj : F64
  session_uptime_seconds : F64
  savings : EnergySavings
deriving DecidableEq, Repr

structure InferenceResponse where
  text : String
  tokens_per_second : F64
  model : String
  energy_mj : F64
deriving DecidableEq, Repr

/-- The contents of `AriaState`'s five mutexes (the shared NodeState).
`python_process` holds the pid of the owned child handle, if any. -/
structure AriaState where
  node_running : Bool
  api_base : String
  api_port : Nat
  python_process : Option Nat
  start_time : Option Nat
deriving DecidableEq, Repr

/-- `AriaState::default()`. -/
def AriaState.default : AriaState :=
  { node_running := false
    api_base := "http://127.0.0.1:3000"
    api_port := 3000
    python_process := none
    start_time := none }

/-- Observable side effects, recorded in program order. -/
inductive Action where
  | sleepMs (ms : Nat)
  | httpGet (url : String)
  | httpPost (url : String)
  | spawn (pid : Nat)
  | kill
  | wait
deriving DecidableEq, Repr

def isHttpAct : Action → Bool
  | .httpGet _ => true
  | .httpPost _ => true
  | _ => false

def isSpawnAct : Action → Bool
  | .spawn _ => true
  | _ => false

def numHttp (tr : List Action) : Nat := tr.countP isHttpAct

def numSpawns (tr : List Action) : Nat := tr.countP isSpawnAct

def numGets (tr : List Action) : Nat :=
  tr.countP fun a => match a with | .httpGet _ => true | _ => false

def numSleeps (tr : List Action) : Nat :=
  tr.countP fun a => match a with | .sleepMs _ => true | _ => false

/-- Every recorded sleep is exactly 500 ms. -/
def sleeps500 (tr : List Action) : Bool :=
  tr.all fun a => match a with | .sleepMs m => m == 500 | _ => true

instance {ε α : Type} [DecidableEq ε] [DecidableEq α] : DecidableEq (Except ε α) :=
  fun x y =>
    match x, y with
    | .ok a, .ok b =>
        if h : a = b then .isTrue (by rw [h]) else .isFalse (by simp [h])
    | .error a, .error b =>
        if h : a = b then .isTrue (by rw [h]) else .isFalse (by simp [h])
    | .ok _, .error _ => .isFalse (by simp)
    | .error _, .ok _ => .isFalse (by simp)

/-- The outcome of one `reqwest` round trip: `err` is a failure of
`send()` itself; `ok success body` carries the HTTP status check
(`status().is_success()`) and the result of decoding the body as JSON. -/
inductive SendResult (α : Type) where
  | err (e : String)
  | ok (success : Bool) (body : Except String α)
deriving DecidableEq, Repr

/-- The fields `get_node_status` / the readiness poller read from a
`GET /v1/status` body; `none` models an absent or wrongly-typed field. -/
structure StatusBody where
  backend : Option String
  version : Option String
  models_count : Option Nat
  llama_cli_available : Option Bool
deriving DecidableEq, Repr

/-- The canonical not-running record returned by `get_node_status`. -/
def notRunningStatus : NodeStatus :=
  { running := false
    peer_count := 0
    uptime_seconds := 0
    version := cargoPkgVersion
    backend := "none"
    model := none
    llama_cli_available := false }

/-- Uptime as computed at the top of `get_node_status`. -/
def uptimeOf (st : AriaState) (now : Nat) : Nat :=
  (st.start_time.map fun t => now - t).getD 0

/-- The "running but backend offline" record (the `_` arm of the probe
match in `get_node_status`). -/
def offlineStatus (st : AriaState) (now : Nat) : NodeStatus :=
  { running := st.node_running
    peer_count := 0
    uptime_seconds := uptimeOf st now
    version := cargoPkgVersion
    backend := "offline"
    model := none
    llama_cli_available := false }

/-- `get_node_status` (lib.rs:283-343): consult local state first; only when
it says running, probe `/v1/status` and reconcile. -/
def get_node_status (st : AriaState) (now : Nat) (resp : SendResult StatusBody) :
    Except String NodeStatus × List Action :=
  if !st.node_running then
    (.ok notRunningStatus, [])
  else
    (match resp with
      | .ok true (.ok body) =>
          .ok { running := true
                peer_count := 0
                uptime_seconds := uptimeOf st now
                version := body.version.getD cargoPkgVersion
                backend := body.backend.getD "unknown"
                model := none
                llama_cli_available := body.llama_cli_available.getD false }
      | .ok true (.error e) => .error e
      | _ => .ok (offlineStatus st now),
     [Action.httpGet (st.api_base ++ "/v1/status")])

/-- `kill_python_process` (lib.rs:491-502): forced kill, blocking reap,
then drop the handle. -/
def kill_python_process (st : AriaState) : AriaState × List Action :=
  ({ st with python_process := none },
   match st.python_process with
   | some _ => [Action.kill, Action.wait]
   | none => [])

/-- `stop_node` (lib.rs:475-488). -/
def stop_node (st : AriaState) : Except String String × AriaState × List Action :=
  if !st.node_running then
    (.error "Node is not running", st, [])
  else
    let k := kill_python_process st
    (.ok "Node stopped",
     { k.1 with node_running := false, start_time := none },
     k.2)

/-- `download_model` (lib.rs:586-618).  Note the `Ok(resp)` arm applies to
any sent response regardless of HTTP status, and only a body that fails to
decode as `DownloadProgress` is replaced by the queued default; a `send()`
failure is returned as an error. -/
def download_model (name : String) (st : AriaState)
    (resp : SendResult DownloadProgress) :
    Except String DownloadProgress × AriaState × List Action :=
  if !st.node_running then
    (.error "Backend is not running. Start the node first.", st, [])
  else
    (match resp with
      | .ok _ (.ok progress) => .ok progress
      | .ok _ (.error _) =>
          .ok { model := name, progress := 0, status := "queued" }
      | .err e => .error ("Failed to start download: " ++ e),
     st,
     [Action.httpPost (st.api_base ++ "/v1/models/download")])

/-- Fields read from a `GET /v1/energy` body (savings subobject flattened). -/
structure EnergyBody where
  total_inferences : Option Nat
  total_tokens_generated : Option Nat
  total_energy_kwh : Option F64
  avg_energy_per_token_mj : Option F64
  session_uptime_seconds : Option F64
  vs_gpu_energy_saved_kwh : Option F64
  vs_gpu_reduction_percent : Option F64
  co2_saved_kg : Option F64
  cost_saved_usd : Option F64
deriving DecidableEq, Repr

/-- The all-zero stats record `get_energy_stats` builds locally. -/
def zeroEnergyStats : EnergyStats :=
  { total_inferences := 0
    total_tokens_generated := 0
    total_energy_kwh := 0
    avg_energy_per_token_mj := 0
    session_uptime_seconds := 0
    savings :=
      { energy_saved_kwh := 0
        reduction_percent := 0
        co2_saved_kg := 0
        cost_saved_usd := 0 } }

/-- `get_energy_stats` (lib.rs:620-684).  A successful response whose body
fails to decode is propagated as an error (the `?` on `resp.json()`); a
send failure or non-success status yields the zero record. -/
def get_energy_stats (st : AriaState) (resp : SendResult EnergyBody) :
    Except String EnergyStats × List Action :=
  if !st.node_running then
    (.ok zeroEnergyStats, [])
  else
    (match resp with
      | .ok true (.ok b) =>
          .ok { total_inferences := b.total_inferences.getD 0
                total_tokens_generated := b.total_tokens_generated.getD 0
                total_energy_kwh := b.total_energy_kwh.getD 0
                avg_energy_per_token_mj := b.avg_energy_per_token_mj.getD 0
                session_uptime_seconds := b.session_uptime_seconds.getD 0
                savings :=
                  { energy_saved_kwh := b.vs_gpu_energy_saved_kwh.getD 0
                    reduction_percent := b.vs_gpu_reduction_percent.getD 0
                    co2_saved_kg := b.co2_saved_kg.getD 0
                    cost_saved_usd := b.cost_saved_usd.getD 0 } }
      | .ok true (.error e) => .error e
      | _ => .ok zeroEnergyStats,
     [Action.httpGet (st.api_base ++ "/v1/energy")])

/-- Fields read from a `POST /v1/chat/completions` body
(`choices[0].message.content` collapsed into one optional field). -/
structure ChatBody where
  content : Option String
  tokens_per_second : Option F64
  energy_mj : Option F64
deriving DecidableEq, Repr

/-- `send_inference` (lib.rs:686-738).  A send failure is surfaced verbatim
(wrapped in the "Inference request failed" message); a body that fails to
decode is also propagated. -/
def send_inference (prompt model : String) (st : AriaState)
    (resp : SendResult ChatBody) :
    Except String InferenceResponse × List Action :=
  if !st.node_running then
    (.error "Backend is not running. Start the node first to send inference requests.",
     [])
  else
    let _payload := prompt
    (match resp with
      | .ok _ (.ok b) =>
          .ok { text := b.content.getD "No response"
                tokens_per_second := b.tokens_per_second.getD 0
                model := model
                energy_mj := b.energy_mj.getD 0 }
      | .ok _ (.error e) => .error e
      | .err e => .error ("Inference request failed: " ++ e),
     [Action.httpPost (st.api_base ++ "/v1/chat/completions")])

/-- `default_models` (lib.rs:782-806): the hardcoded default catalog. -/
def default_models : List ModelInfo :=
  [ { name := "BitNet-b1.58-large"
      params := "0.7B"
      size := "400 MB"
      downloaded := false
      description := "Fast, lightweight model for quick responses" },
    { name := "BitNet-b1.58-2B-4T"
      params := "2.4B"
      size := "1.3 GB"
      downloaded := false
      description := "Best balance of speed and quality" },
    { name := "Llama3-8B-1.58"
      params := "8.0B"
      size := "4.2 GB"
      downloaded := false
      description := "Most capable model, requires more RAM" } ]

/-- The fixed local model-file manifest of `get_models`
(lib.rs:565-569): name, params, size, path under `~/.aria/models`. -/
def model_defs : List (String × String × String × String) :=
  [ ("BitNet-b1.58-large", "0.7B", "400 MB",
     "bitnet_b1_58-large/ggml-model-i2_s.gguf"),
    ("BitNet-b1.58-2B-4T", "2.4B", "1.3 GB",
     "BitNet-b1.58-2B-4T/ggml-model-i2_s.gguf"),
    ("Llama3-8B-1.58", "8.0B", "4.2 GB",
     "Llama3-8B-1.58-100B-tokens/ggml-model-i2_s.gguf") ]

/-- The filesystem fallback of `get_models` (lib.rs:559-583);
`fsExists` abstracts `models_dir.join(path).exists()`. -/
def fsFallback (fsExists : String → Bool) : List ModelInfo :=
  model_defs.map fun d =>
    { name := d.1
      params := d.2.1
      size := d.2.2.1
      downloaded := fsExists d.2.2.2
      description := d.1 ++ " — 1.58-bit quantization" }

/-- One element of the `data` array of a `GET /v1/models` body. -/
structure MJson where
  id : Option String
  display_name : Option String
  params : Option String
  quantization : Option String
  ready : Option Bool
deriving DecidableEq, Repr

/-- A `GET /v1/models` body: `data` is `none` when the field is absent or
not an array. -/
structure ModelsBody where
  data : Option (List MJson)
deriving DecidableEq, Repr

/-- The per-entry mapping in `get_models`' API branch (lib.rs:525-545). -/
def modelFromJson (m : MJson) : ModelInfo :=
  let id := m.id.getD "unknown"
  { name := m.display_name.getD id
    params := m.params.getD "?"
    size := m.params.getD "?" ++ " params"
    downloaded := m.ready.getD false
    description := id ++ " — " ++ m.quantization.getD "1.58-bit" ++ " quantization" }

/-- `get_models` (lib.rs:504-584).  The API is consulted only when the node
is running; a successful response with a `data` array maps each entry, a
successful response without one yields `default_models`, and every other
outcome (including a node never started) falls back to the filesystem
manifest check. -/
def get_models (st : AriaState) (fsExists : String → Bool)
    (resp : SendResult ModelsBody) :
    Except String (List ModelInfo) × List Action :=
  if st.node_running then
    let tr := [Action.httpGet (st.api_base ++ "/v1/models")]
    match resp with
    | .ok true (.ok body) =>
        match body.data with
        | some arr => (.ok (arr.map modelFromJson), tr)
        | none => (.ok default_models, tr)
    | .ok true (.error _) => (.ok (fsFallback fsExists), tr)
    | _ => (.ok (fsFallback fsExists), tr)
  else
    (.ok (fsFallback fsExists), [])

/-- What the readiness loop observes at one iteration: the result of
`child.try_wait()` (`ok none` = still running, `ok (some s)` = exited with
status `s`) and the `/v1/status` probe outcome. -/
structure IterObs where
  tryWait : Except String (Option Nat)
  resp : SendResult StatusBody
deriving DecidableEq, Repr

/-- How the readiness loop ends. -/
inductive PollOutcome where
  | exited (status : Nat)
  | waitErr (e : String)
  | ready (backend : String) (models : Nat)
  | timeout
deriving DecidableEq, Repr

/-- The readiness loop of `start_node` (lib.rs:410-453), by remaining
attempts (`fuel`, 60 at entry) and iteration index `i`.  Each iteration
sleeps 500 ms, then polls the process (when a handle is held: a detected
exit clears the handle and aborts; a `try_wait` error aborts), then probes
`/v1/status`; a successful response breaks out at once (with defaulted
backend name and model count when the body fails to decode), anything else
continues. -/
def pollLoop (iter : Nat → IterObs) (base : String) :
    Nat → Nat → Option Nat → PollOutcome × Option Nat × List Action
  | 0, _, proc => (.timeout, proc, [])
  | fuel + 1, i, proc =>
    match proc, (iter i).tryWait with
    | some _, .ok (some status) => (.exited status, none, [.sleepMs 500])
    | some pid, .error e => (.waitErr e, some pid, [.sleepMs 500])
    | _, _ =>
      match (iter i).resp with
      | .ok true (.ok body) =>
          (.ready (body.backend.getD "simulation") (body.models_count.getD 0),
           proc, [.sleepMs 500, .httpGet (base ++ "/v1/status")])
      | .ok true (.error _) =>
          (.ready "simulation" 0, proc,
           [.sleepMs 500, .httpGet (base ++ "/v1/status")])
      | _ =>
          let r := pollLoop iter base fuel (i + 1) proc
          (r.1, r.2.1, .sleepMs 500 :: .httpGet (base ++ "/v1/status") :: r.2.2)

/-- The environment a single `start_node` run interacts with:
`find_python`'s result, `check_aria_installed`'s verdict, the spawn
outcome (pid on success), the per-iteration readiness observations, and
the clock reading taken at `Instant::now()`. -/
structure StartEnv where
  findPython : Option String
  ariaOk : Bool
  spawnRes : Except String Nat
  iter : Nat → IterObs
  now : Nat

def pythonMissingMsg : String :=
  "Python 3 not found in PATH. Install Python 3.10+ and ensure it is in your system PATH."

def ariaMissingMsg : String :=
  "ARIA package not found. Run: pip install -e \".[dev]\" from the aria-protocol directory."

def startTimeoutMsg : String :=
  "ARIA API server failed to start within 30 seconds. Check that port 3000 is available."

def apiBaseOf (port : Nat) : String := "http://127.0.0.1:" ++ toString port

/-- `start_node` (lib.rs:345-473) as a sequential run: the already-running
check, environment probing, spawn, handle store, 60-attempt readiness
loop, and either rollback (exit / wait error / timeout-kill) or the
commit of `node_running` / `api_base` / `start_time`. -/
def start_node (st : AriaState) (env : StartEnv) :
    Except String StartNodeResult × AriaState × List Action :=
  if st.node_running then
    (.error "Node is already running", st, [])
  else
    let port := st.api_port
    match env.findPython with
    | none => (.error pythonMissingMsg, st, [])
    | some _python =>
      if !env.ariaOk then
        (.error ariaMissingMsg, st, [])
      else
        match env.spawnRes with
        | .error e => (.error ("Failed to start ARIA backend: " ++ e), st, [])
        | .ok pid =>
          let st1 := { st with python_process := some pid }
          let base := apiBaseOf port
          let r := pollLoop env.iter base 60 0 st1.python_process
          let st2 := { st1 with python_process := r.2.1 }
          let tr := Action.spawn pid :: r.2.2
          match r.1 with
          | .exited status =>
              (.error ("Python API server exited prematurely with status: " ++
                 toString status), st2, tr)
          | .waitErr e =>
              (.error ("Failed to check process status: " ++ e), st2, tr)
          | .timeout =>
              let k := kill_python_process st2
              (.error startTimeoutMsg, k.1, tr ++ k.2)
          | .ready backend models =>
              (.ok { status := "running"
                     backend := backend
                     port := port
                     pid := pid
                     models_available := models },
               { st2 with
                  node_running := true
                  api_base := base
                  start_time := some env.now },
               tr)

/-!
Interleaving model of two concurrent `start_node` calls.

In the source, the already-running check (lib.rs:348-353), the spawn
(lib.rs:382-393) and the handle store (lib.rs:398-401) are three separate
critical sections: each mutex guard is dropped at its block's end, and the
code awaits (`spawn_blocking`, probe detection) between them, so another
task may run in between.  Each `Pc` step below is one such atomic section.
-/

/-- Program counter of one in-flight `start_node` task, at the granularity
of its lock-protected sections. -/
inductive Pc where
  | checkRun
  | doSpawn
  | store
  | polling
  | failedAlready
deriving DecidableEq, Repr

/-- One in-flight `start_node` call; `pid` is the pid its spawn produces. -/
structure StartTask where
  pc : Pc
  pid : Nat
deriving DecidableEq, Repr

/-- Two concurrent `start_node` tasks over one shared `AriaState` core
(`node_running` and `python_process` mutexes), with the list of pids
spawned so far. -/
structure Sys where
  node_running : Bool
  python_process : Option Nat
  spawned : List Nat
  t1 : StartTask
  t2 : StartTask
deriving DecidableEq, Repr

/-- Run the next atomic section of one task (lib.rs:348-353 check,
lib.rs:382-393 spawn, lib.rs:398-401 store). -/
def taskStep (running : Bool) (proc : Option Nat) (spawned : List Nat)
    (t : StartTask) : StartTask × Bool × Option Nat × List Nat :=
  match t.pc with
  | .checkRun =>
      if running then ({ t with pc := .failedAlready }, running, proc, spawned)
      else ({ t with pc := .doSpawn }, running, proc, spawned)
  | .doSpawn => ({ t with pc := .store }, running, proc, spawned ++ [t.pid])
  | .store => ({ t with pc := .polling }, running, some t.pid, spawned)
  | _ => (t, running, proc, spawned)

/-- Scheduler step: `true` runs task 1, `false` runs task 2. -/
def sysStep (s : Sys) (which : Bool) : Sys :=
  if which then
    let r := taskStep s.node_running s.python_process s.spawned s.t1
    { node_running := r.2.1, python_process := r.2.2.1, spawned := r.2.2.2
      t1 := r.1, t2 := s.t2 }
  else
    let r := taskStep s.node_running s.python_process s.spawned s.t2
    { node_running := r.2.1, python_process := r.2.2.1, spawned := r.2.2.2
      t1 := s.t1, t2 := r.1 }

/-- Run a schedule (list of scheduler choices) from a configuration. -/
def sysRun (sched : List Bool) (s : Sys) : Sys := sched.foldl sysStep s

/-- Two fresh `start_node` calls (pids 1 and 2) against the initial shared
state (`running = false`, no handle). -/
def sysInit : Sys :=
  { node_running := false
    python_process := none
    spawned := []
    t1 := { pc := .checkRun, pid := 1 }
    t2 := { pc := .checkRun, pid := 2 }
  }

/-- The racing schedule: both tasks pass the already-running check before
either spawns, then task 1 spawns and stores, then task 2 spawns and
stores. -/
def raceSched : List Bool := [true, false, true, true, false, false]

/-!  Helper notions for reasoning about the readiness loop. -/

/-- A probe outcome the status/models/energy handlers treat as
unreachable-or-offline: the send failed or the HTTP status was not a
success. -/
def probeFailed {α : Type} : SendResult α → Bool
  | .err _ => true
  | .ok false _ => true
  | .ok true _ => false

/-- A probe outcome the readiness loop does not treat as ready (send
failure or non-success status; any success breaks the loop even when the
body fails to decode). -/
def respNotReady : SendResult StatusBody → Bool
  | .ok true _ => false
  | _ => true

/-- Iteration observation under which the readiness loop continues: the
child is still alive and the probe is not ready. -/
def aliveNotReady (o : IterObs) : Prop :=
  o.tryWait = Except.ok none ∧ respNotReady o.resp = true

instance (o : IterObs) : Decidable (aliveNotReady o) := by
  unfold aliveNotReady; infer_instance

/-- The actions of one continuing readiness iteration. -/
def contActs (base : String) : List Action :=
  [Action.sleepMs 500, Action.httpGet (base ++ "/v1/status")]

/-- `n` copies of an action block, concatenated. -/
def joinN (n : Nat) (l : List Action) : List Action :=
  match n with
  | 0 => []
  | m + 1 => l ++ joinN m l

lemma numGets_contActs (base : String) : numGets (contActs base) = 1 := rfl

lemma numGets_append (a b : List Action) :
    numGets (a ++ b) = numGets a + numGets b := List.countP_append _ _ _

lemma numGets_joinN (n : Nat) (base : String) :
    numGets (joinN n (contActs base)) = n := by
  induction n with
  | zero => rfl
  | succ m ih => simp [joinN, numGets_append, numGets_contActs, ih, Nat.add_comm]

/-- One continuing iteration of the readiness loop unfolds to the next
iteration with its two actions prepended. -/
lemma pollLoop_cont (iter : Nat → IterObs) (base : String) (fuel i pid : Nat)
    (h : aliveNotReady (iter i)) :
    pollLoop iter base (fuel + 1) i (some pid) =
      ((pollLoop iter base fuel (i + 1) (some pid)).1,
       (pollLoop iter base fuel (i + 1) (some pid)).2.1,
       contActs base ++ (pollLoop iter base fuel (i + 1) (some pid)).2.2) := by
  obtain ⟨h1, h2⟩ := h
  simp only [pollLoop]
  rw [h1]
  cases hr : (iter i).resp with
  | err e => rfl
  | ok success body =>
    cases success with
    | false => rfl
    | true => rw [hr] at h2; simp [respNotReady] at h2

/-- Skipping `k` continuing iterations. -/
lemma pollLoop_skip (iter : Nat → IterObs) (base : String) :
    ∀ (k i fuel pid : Nat), (∀ j, j < k → aliveNotReady (iter (i + j))) →
      pollLoop iter base (k + fuel) i (some pid) =
        ((pollLoop iter base fuel (i + k) (some pid)).1,
         (pollLoop iter base fuel (i + k) (some pid)).2.1,
         joinN k (contActs base) ++
           (pollLoop iter base fuel (i + k) (some pid)).2.2) := by
  intro k
  induction k with
  | zero => intro i fuel pid _; simp [joinN]
  | succ n ih =>
    intro i fuel pid h
    have hstep : aliveNotReady (iter i) := by
      have h0 := h 0 (Nat.succ_pos n)
      simpa using h0
    have heq : n + 1 + fuel = (n + fuel) + 1 := by omega
    rw [heq, pollLoop_cont iter base (n + fuel) i pid hstep]
    have ih2 := ih (i + 1) fuel pid (fun j hj => by
      have e : i + 1 + j = i + (j + 1) := by omega
      rw [e]
      exact h (j + 1) (Nat.succ_lt_succ hj))
    rw [ih2]
    have e2 : i + 1 + n = i + (n + 1) := by omega
    rw [e2]
    simp [joinN, List.append_assoc]

/-- A process exit detected at iteration `k` (after `k` continuing
iterations) ends the loop at once: no probe is issued at iteration `k`. -/
lemma pollLoop_exited (iter : Nat → IterObs) (base : String)
    (k s pid : Nat) (hk : k < 60)
    (h : ∀ j, j < k → aliveNotReady (iter j))
    (hex : (iter k).tryWait = Except.ok (some s)) :
    pollLoop iter base 60 0 (some pid) =
      (.exited s, none, joinN k (contActs base) ++ [Action.sleepMs 500]) := by
  have h60 : (60 : Nat) = k + (60 - k) := by omega
  rw [h60, pollLoop_skip iter base k 0 (60 - k) pid
    (fun j hj => by simpa using h j hj)]
  have hP : pollLoop iter base (60 - k) (0 + k) (some pid) =
      (.exited s, none, [Action.sleepMs 500]) := by
    obtain ⟨m, hm⟩ : ∃ m, 60 - k = m + 1 := ⟨60 - k - 1, by omega⟩
    rw [Nat.zero_add, hm]
    simp only [pollLoop]
    rw [hex]
  rw [hP]

/-- The first successful probe (iteration `k`, after `k` continuing
iterations) ends the loop at once with the parsed backend name and model
count. -/
lemma pollLoop_ready (iter : Nat → IterObs) (base : String)
    (k pid : Nat) (body : StatusBody) (hk : k < 60)
    (h : ∀ j, j < k → aliveNotReady (iter j))
    (halive : (iter k).tryWait = Except.ok none)
    (hresp : (iter k).resp = SendResult.ok true (Except.ok body)) :
    pollLoop iter base 60 0 (some pid) =
      (.ready (body.backend.getD "simulation") (body.models_count.getD 0),
       some pid, joinN k (contActs base) ++ contActs base) := by
  have h60 : (60 : Nat) = k + (60 - k) := by omega
  rw [h60, pollLoop_skip iter base k 0 (60 - k) pid
    (fun j hj => by simpa using h j hj)]
  have hP : pollLoop iter base (60 - k) (0 + k) (some pid) =
      (.ready (body.backend.getD "simulation") (body.models_count.getD 0),
       some pid, contActs base) := by
    obtain ⟨m, hm⟩ : ∃ m, 60 - k = m + 1 := ⟨60 - k - 1, by omega⟩
    rw [Nat.zero_add, hm]
    simp only [pollLoop]
    rw [halive, hresp]
    rfl
  rw [hP]

/-- Sixty fruitless attempts end in the timeout outcome, with the handle
still held. -/
lemma pollLoop_timeout (iter : Nat → IterObs) (base : String) (pid : Nat)
    (h : ∀ j, j < 60 → aliveNotReady (iter j)) :
    pollLoop iter base 60 0 (some pid) =
      (.timeout, some pid, joinN 60 (contActs base)) := by
  have hs := pollLoop_skip iter base 60 0 0 pid
    (fun j hj => by simpa using h j hj)
  have h0 : pollLoop iter base 0 (0 + 60) (some pid) =
      (.timeout, some pid, []) := rfl
  rw [h0] at hs
  simpa using hs

/-- The loop trace never exceeds the budget: at most 60 sleeps and 60
probes, every sleep exactly 500 ms. -/
lemma pollLoop_bound (iter : Nat → IterObs) (base : String) :
    ∀ (fuel i : Nat) (proc : Option Nat),
      numSleeps (pollLoop iter base fuel i proc).2.2 ≤ fuel ∧
      numGets (pollLoop iter base fuel i proc).2.2 ≤ fuel ∧
      sleeps500 (pollLoop iter base fuel i proc).2.2 = true := by
  intro fuel
  induction fuel with
  | zero => intro i proc; simp [pollLoop, numSleeps, numGets, sleeps500]
  | succ n ih =>
    intro i proc
    have hcont : ∀ p : Option Nat,
        numSleeps (Action.sleepMs 500 :: Action.httpGet (base ++ "/v1/status") ::
          (pollLoop iter base n (i + 1) p).2.2) ≤ n + 1 ∧
        numGets (Action.sleepMs 500 :: Action.httpGet (base ++ "/v1/status") ::
          (pollLoop iter base n (i + 1) p).2.2) ≤ n + 1 ∧
        sleeps500 (Action.sleepMs 500 :: Action.httpGet (base ++ "/v1/status") ::
          (pollLoop iter base n (i + 1) p).2.2) = true := by
      intro p
      obtain ⟨hs1, hs2, hs3⟩ := ih (i + 1) p
      simp only [numSleeps] at hs1
      simp only [numGets] at hs2
      simp only [sleeps500] at hs3
      refine ⟨?_, ?_, ?_⟩
      · simp only [numSleeps]
        simp [List.countP_cons]
        omega
      · simp only [numGets]
        simp [List.countP_cons]
        omega
      · simp only [sleeps500, List.all_cons]
        simp [hs3]
    simp only [pollLoop]
    rcases proc with _ | pid
    · rcases hr : (iter i).resp with e2 | ⟨_ | _, e3 | b⟩
      · exact hcont none
      · exact hcont none
      · exact hcont none
      · simp [numSleeps, numGets, sleeps500]
      · simp [numSleeps, numGets, sleeps500]
    · rcases htw : (iter i).tryWait with e | (_ | s)
      · simp [numSleeps, numGets, sleeps500]
      · rcases hr : (iter i).resp with e2 | ⟨_ | _, e3 | b⟩
        · exact hcont (some pid)
        · exact hcont (some pid)
        · exact hcont (some pid)
        · simp [numSleeps, numGets, sleeps500]
        · simp [numSleeps, numGets, sleeps500]
      · simp [numSleeps, numGets, sleeps500]

/-!  Concrete fixtures used by witnesses and counterexamples. -/

/-- A running node state holding the handle of pid 7, started at clock 5. -/
def stRun : AriaState :=
  { node_running := true
    api_base := "http://127.0.0.1:3000"
    api_port := 3000
    python_process := some 7
    start_time := some 5 }

/-- An iteration observation under which the loop continues. -/
def obsCont : IterObs :=
  { tryWait := Except.ok none, resp := .err "connection refused" }

/-- Child alive throughout, probe never reachable. -/
def iterNever : Nat → IterObs := fun _ => obsCont

/-- Child exits with status 1 at iteration 2. -/
def iterExit : Nat → IterObs := fun j =>
  if j < 2 then obsCont
  else { tryWait := Except.ok (some 1), resp := .err "connection refused" }

/-- Probe succeeds at iteration 2 reporting backend "bitnet" and 3 models. -/
def iterReady : Nat → IterObs := fun j =>
  if j < 2 then obsCont
  else
    { tryWait := Except.ok none
      resp := .ok true (.ok
        { backend := some "bitnet"
          version := some "0.1.0"
          models_count := some 3
          llama_cli_available := some true }) }

/-- A start environment whose readiness probes never succeed. -/
def envNever : StartEnv :=
  { findPython := some "python"
    ariaOk := true
    spawnRes := Except.ok 9
    iter := iterNever
    now := 0 }

/-!  Claim theorems. -/

/-- C1: the code refutes the claim.  Under the schedule in which both
`start_node` calls pass the already-running check (lib.rs:348-353) before
either commits `node_running` — possible because the flag is set only
after the readiness loop (lib.rs:462) — both calls spawn a process
(pids 1 and 2 both appear in the spawn list), neither fails with
"already running" (both reach the polling phase), and the second store
silently replaces the first live handle (`python_process` ends at pid 2
with pid 1 never killed). -/
theorem concurrent_start_race :
    (sysRun raceSched sysInit).spawned = [1, 2] ∧
    (sysRun raceSched sysInit).python_process = some 2 ∧
    (sysRun raceSched sysInit).t1.pc = Pc.polling ∧
    (sysRun raceSched sysInit).t2.pc = Pc.polling := by decide

/-- C6: `start_node` called while `node_running = true` fails with the
"already running" error, leaves the state untouched, and spawns no
process. -/
theorem start_already_running (st : AriaState) (env : StartEnv)
    (h : st.node_running = true) :
    start_node st env = (.error "Node is already running", st, []) ∧
    numSpawns (start_node st env).2.2 = 0 := by
  have key : start_node st env = (.error "Node is already running", st, []) := by
    unfold start_node
    rw [h]
    simp
  exact ⟨key, by rw [key]; rfl⟩

theorem start_already_running_witness :
    start_node stRun envNever = (.error "Node is already running", stRun, []) ∧
    numSpawns (start_node stRun envNever).2.2 = 0 :=
  start_already_running stRun envNever rfl

/-- C7: `stop_node` with `node_running = false` fails with the
"not running" error and performs no process operation; and stopping is
idempotent: immediately after a successful stop the flag is down, so a
second stop reports not-running without touching anything. -/
theorem stop_not_running_idempotent (st : AriaState) :
    (st.node_running = false →
      stop_node st = (.error "Node is not running", st, [])) ∧
    (st.node_running = true →
      stop_node (stop_node st).2.1 =
        (.error "Node is not running", (stop_node st).2.1, [])) := by
  have key : ∀ s : AriaState, s.node_running = false →
      stop_node s = (.error "Node is not running", s, []) := by
    intro s hs
    unfold stop_node
    rw [hs]
    simp
  refine ⟨key st, fun h => key _ ?_⟩
  unfold stop_node
  rw [h]
  simp [kill_python_process]

theorem stop_not_running_idempotent_witness :
    stop_node AriaState.default =
      (.error "Node is not running", AriaState.default, []) ∧
    stop_node (stop_node stRun).2.1 =
      (.error "Node is not running", (stop_node stRun).2.1, []) :=
  ⟨(stop_not_running_idempotent AriaState.default).1 rfl,
   (stop_not_running_idempotent stRun).2 rfl⟩

/-- C10: for every model name, `download_model` with `node_running = false`
returns the "Backend is not running" error, makes no network call, and
leaves the state unchanged. -/
theorem download_model_not_running (name : String) (st : AriaState)
    (resp : SendResult DownloadProgress) (h : st.node_running = false) :
    download_model name st resp =
      (.error "Backend is not running. Start the node first.", st, []) := by
  unfold download_model
  rw [h]
  simp

theorem download_model_not_running_witness :
    download_model "BitNet-b1.58-large" AriaState.default (.err "unreachable") =
      (.error "Backend is not running. Start the node first.",
       AriaState.default, []) :=
  download_model_not_running "BitNet-b1.58-large" AriaState.default
    (.err "unreachable") rfl

/-- C4: with local state not running, `get_node_status` makes zero network
calls and returns the canonical not-running record (running false, zero
uptime); with local state running and an unreachable or non-success
probe, it returns the "running but backend offline" record, which still
reports `running = true` and differs from the not-running record. -/
theorem status_reconciliation (st : AriaState) (now : Nat)
    (resp : SendResult StatusBody) :
    (st.node_running = false →
      get_node_status st now resp = (.ok notRunningStatus, []) ∧
      notRunningStatus.running = false ∧
      notRunningStatus.uptime_seconds = 0) ∧
    (st.node_running = true → probeFailed resp = true →
      get_node_status st now resp =
        (.ok (offlineStatus st now),
         [Action.httpGet (st.api_base ++ "/v1/status")]) ∧
      (offlineStatus st now).running = true ∧
      offlineStatus st now ≠ notRunningStatus) := by
  constructor
  · intro h
    refine ⟨?_, rfl, rfl⟩
    unfold get_node_status
    rw [h]
    simp
  · intro h hoff
    refine ⟨?_, by simp [offlineStatus, h], ?_⟩
    · unfold get_node_status
      rw [h]
      rcases resp with e | ⟨_ | _, e2 | b⟩
      · simp
      · simp
      · simp
      · simp [probeFailed] at hoff
      · simp [probeFailed] at hoff
    · intro he
      have hc := congrArg NodeStatus.running he
      simp [offlineStatus, notRunningStatus, h] at hc

theorem status_reconciliation_witness :
    (get_node_status AriaState.default 10 (.err "unreachable") =
       (.ok notRunningStatus, []) ∧
     notRunningStatus.running = false ∧
     notRunningStatus.uptime_seconds = 0) ∧
    (get_node_status stRun 10 (.err "unreachable") =
       (.ok (offlineStatus stRun 10),
        [Action.httpGet "http://127.0.0.1:3000/v1/status"]) ∧
     (offlineStatus stRun 10).running = true ∧
     offlineStatus stRun 10 ≠ notRunningStatus) :=
  ⟨(status_reconciliation AriaState.default 10 (.err "unreachable")).1 rfl,
   (status_reconciliation stRun 10 (.err "unreachable")).2 rfl rfl⟩

/-- C5 counterexample: `stop_node` on a running state performs no HTTP
request at all — its trace is exactly the kill and the reap — so no
best-effort graceful shutdown request to the backend precedes the
termination signal, contrary to step (1) of the claim. -/
theorem stop_no_graceful_request :
    stop_node stRun =
      (.ok "Node stopped",
       { node_running := false
         api_base := "http://127.0.0.1:3000"
         api_port := 3000
         python_process := none
         start_time := none },
       [Action.kill, Action.wait]) ∧
    numHttp (stop_node stRun).2.2 = 0 := ⟨rfl, rfl⟩

/-- C5 (amended): `stop_node` on a running node with a held handle
performs, in order, the termination signal and the blocking wait for
exit, and only then clears the handle, running flag and start timestamp;
it makes no graceful shutdown request (no HTTP action in its trace). -/
theorem stop_sequence (st : AriaState) (pid : Nat)
    (hrun : st.node_running = true) (hproc : st.python_process = some pid) :
    stop_node st =
      (.ok "Node stopped",
       { st with python_process := none, node_running := false, start_time := none },
       [Action.kill, Action.wait]) ∧
    numHttp (stop_node st).2.2 = 0 := by
  have key : stop_node st =
      (.ok "Node stopped",
       { st with python_process := none, node_running := false, start_time := none },
       [Action.kill, Action.wait]) := by
    unfold stop_node kill_python_process
    rw [hrun, hproc]
    simp
  exact ⟨key, by rw [key]; rfl⟩

theorem stop_sequence_witness :
    stop_node stRun =
      (.ok "Node stopped",
       { stRun with python_process := none, node_running := false, start_time := none },
       [Action.kill, Action.wait]) ∧
    numHttp (stop_node stRun).2.2 = 0 :=
  stop_sequence stRun 7 rfl rfl

/-- C8 counterexample: `download_model` is a pass-through call other than
inference, yet a network failure of its request is propagated to the
caller as an error instead of being recovered into a default payload. -/
theorem download_network_error_propagated :
    download_model "BitNet-b1.58-2B-4T" stRun (.err "connection refused") =
      (.error "Failed to start download: connection refused", stRun,
       [Action.httpPost "http://127.0.0.1:3000/v1/models/download"]) := rfl

/-- C8 (amended): `get_energy_stats` recovers a send failure or
non-success status into the all-zero record (and returns it when not
running) but propagates a decode failure of a successful response;
`download_model` synthesizes the queued default only for a response whose
body fails to decode, while a send failure is propagated; a send failure
of the inference call is surfaced verbatim. -/
theorem proxy_error_recovery (st : AriaState)
    (name prompt model e je : String) (s : Bool)
    (respE : SendResult EnergyBody) :
    (st.node_running = false →
      get_energy_stats st respE = (.ok zeroEnergyStats, [])) ∧
    (st.node_running = true → probeFailed respE = true →
      get_energy_stats st respE =
        (.ok zeroEnergyStats, [Action.httpGet (st.api_base ++ "/v1/energy")])) ∧
    (st.node_running = true →
      get_energy_stats st (.ok true (.error je)) =
        (.error je, [Action.httpGet (st.api_base ++ "/v1/energy")])) ∧
    (st.node_running = true →
      download_model name st (.ok s (.error je)) =
        (.ok { model := name, progress := 0, status := "queued" }, st,
         [Action.httpPost (st.api_base ++ "/v1/models/download")])) ∧
    (st.node_running = true →
      download_model name st (.err e) =
        (.error ("Failed to start download: " ++ e), st,
         [Action.httpPost (st.api_base ++ "/v1/models/download")])) ∧
    (st.node_running = true →
      send_inference prompt model st (.err e) =
        (.error ("Inference request failed: " ++ e),
         [Action.httpPost (st.api_base ++ "/v1/chat/completions")])) := by
  refine ⟨fun h => ?_, fun h hoff => ?_, fun h => ?_, fun h => ?_,
    fun h => ?_, fun h => ?_⟩
  · unfold get_energy_stats
    rw [h]
    simp
  · unfold get_energy_stats
    rw [h]
    rcases respE with e2 | ⟨_ | _, e3 | b⟩
    · simp
    · simp
    · simp
    · simp [probeFailed] at hoff
    · simp [probeFailed] at hoff
  · unfold get_energy_stats
    rw [h]
    rfl
  · unfold download_model
    rw [h]
    cases s <;> rfl
  · unfold download_model
    rw [h]
    rfl
  · unfold send_inference
    rw [h]
    rfl

theorem proxy_error_recovery_witness :
    get_energy_stats AriaState.default (.err "net down") =
      (.ok zeroEnergyStats, []) ∧
    get_energy_stats stRun (.err "net down") =
      (.ok zeroEnergyStats, [Action.httpGet "http://127.0.0.1:3000/v1/energy"]) ∧
    get_energy_stats stRun (.ok true (.error "bad json")) =
      (.error "bad json", [Action.httpGet "http://127.0.0.1:3000/v1/energy"]) ∧
    download_model "m1" stRun (.ok true (.error "bad json")) =
      (.ok { model := "m1", progress := 0, status := "queued" }, stRun,
       [Action.httpPost "http://127.0.0.1:3000/v1/models/download"]) ∧
    download_model "m1" stRun (.err "net down") =
      (.error "Failed to start download: net down", stRun,
       [Action.httpPost "http://127.0.0.1:3000/v1/models/download"]) ∧
    send_inference "hi" "m1" stRun (.err "net down") =
      (.error "Inference request failed: net down",
       [Action.httpPost "http://127.0.0.1:3000/v1/chat/completions"]) :=
  ⟨(proxy_error_recovery AriaState.default "m1" "hi" "m1" "net down" "bad json"
      true (.err "net down")).1 rfl,
   (proxy_error_recovery stRun "m1" "hi" "m1" "net down" "bad json"
      true (.err "net down")).2.1 rfl rfl,
   (proxy_error_recovery stRun "m1" "hi" "m1" "net down" "bad json"
      true (.err "net down")).2.2.1 rfl,
   (proxy_error_recovery stRun "m1" "hi" "m1" "net down" "bad json"
      true (.err "net down")).2.2.2.1 rfl,
   (proxy_error_recovery stRun "m1" "hi" "m1" "net down" "bad json"
      true (.err "net down")).2.2.2.2.1 rfl,
   (proxy_error_recovery stRun "m1" "hi" "m1" "net down" "bad json"
      true (.err "net down")).2.2.2.2.2 rfl⟩

/-- C9 counterexample: on a node never started (fresh default state),
`get_models` returns the filesystem-manifest fallback — not the hardcoded
default catalog, which differs from it (the fallback's descriptions are
"… 1.58-bit quantization", the catalog's are prose). -/
theorem models_never_started_not_default :
    get_models AriaState.default (fun _ => false) (.err "never started") =
      (.ok (fsFallback fun _ => false), []) ∧
    fsFallback (fun _ => false) ≠ default_models := by
  exact ⟨rfl, by decide⟩

/-- C9 (amended): `get_models` falls back to the filesystem existence
check over the fixed three-entry manifest both when the backend is
unreachable and when the node was never started; the hardcoded default
catalog is returned only when the backend answers successfully without a
`data` array. -/
theorem models_fallback (st : AriaState) (fsExists : String → Bool)
    (resp : SendResult ModelsBody) :
    (st.node_running = true → probeFailed resp = true →
      get_models st fsExists resp =
        (.ok (fsFallback fsExists),
         [Action.httpGet (st.api_base ++ "/v1/models")])) ∧
    (st.node_running = false →
      get_models st fsExists resp = (.ok (fsFallback fsExists), [])) ∧
    (st.node_running = true →
      get_models st fsExists (.ok true (.ok { data := none })) =
        (.ok default_models, [Action.httpGet (st.api_base ++ "/v1/models")])) ∧
    (fsFallback fsExists).length = 3 := by
  refine ⟨fun h hoff => ?_, fun h => ?_, fun h => ?_, rfl⟩
  · unfold get_models
    rw [h]
    rcases resp with e2 | ⟨_ | _, e3 | b⟩
    · simp
    · simp
    · simp
    · simp [probeFailed] at hoff
    · simp [probeFailed] at hoff
  · unfold get_models
    rw [h]
    simp
  · unfold get_models
    rw [h]
    rfl

theorem models_fallback_witness :
    get_models stRun (fun _ => true) (.err "net down") =
      (.ok (fsFallback fun _ => true),
       [Action.httpGet "http://127.0.0.1:3000/v1/models"]) ∧
    get_models AriaState.default (fun _ => true) (.err "net down") =
      (.ok (fsFallback fun _ => true), []) ∧
    get_models stRun (fun _ => true) (.ok true (.ok { data := none })) =
      (.ok default_models, [Action.httpGet "http://127.0.0.1:3000/v1/models"]) ∧
    (fsFallback fun _ => true).length = 3 :=
  ⟨(models_fallback stRun (fun _ => true) (.err "net down")).1 rfl rfl,
   (models_fallback AriaState.default (fun _ => true) (.err "net down")).2.1 rfl,
   (models_fallback stRun (fun _ => true) (.err "net down")).2.2.1 rfl,
   (models_fallback stRun (fun _ => true) (.err "net down")).2.2.2⟩

/-- C2: the readiness loop runs at most 60 iterations, each sleeping a
fixed 500 ms; a process exit detected (by the non-blocking poll that each
iteration performs first) after `k` continuing iterations aborts at once
with the exited outcome, having issued exactly `k` probes — none at the
aborting iteration; the first successful health response ends the loop at
once with the parsed backend identifier and model count; and 60
attempts without a successful response end in the timeout outcome. -/
theorem readiness_loop (iter : Nat → IterObs) (base : String) (pid : Nat) :
    (∀ proc : Option Nat,
       numSleeps (pollLoop iter base 60 0 proc).2.2 ≤ 60 ∧
       numGets (pollLoop iter base 60 0 proc).2.2 ≤ 60 ∧
       sleeps500 (pollLoop iter base 60 0 proc).2.2 = true) ∧
    (∀ k s, k < 60 → (∀ j, j < k → aliveNotReady (iter j)) →
       (iter k).tryWait = Except.ok (some s) →
       pollLoop iter base 60 0 (some pid) =
         (.exited s, none, joinN k (contActs base) ++ [Action.sleepMs 500]) ∧
       numGets (joinN k (contActs base) ++ [Action.sleepMs 500]) = k) ∧
    (∀ k body, k < 60 → (∀ j, j < k → aliveNotReady (iter j)) →
       (iter k).tryWait = Except.ok none →
       (iter k).resp = SendResult.ok true (Except.ok body) →
       pollLoop iter base 60 0 (some pid) =
         (.ready (body.backend.getD "simulation") (body.models_count.getD 0),
          some pid, joinN k (contActs base) ++ contActs base)) ∧
    ((∀ j, j < 60 → aliveNotReady (iter j)) →
       pollLoop iter base 60 0 (some pid) =
         (.timeout, some pid, joinN 60 (contActs base))) := by
  refine ⟨fun proc => pollLoop_bound iter base 60 0 proc,
    fun k s hk h hex => ⟨pollLoop_exited iter base k s pid hk h hex, ?_⟩,
    fun k body hk h halive hresp =>
      pollLoop_ready iter base k pid body hk h halive hresp,
    fun h => pollLoop_timeout iter base pid h⟩
  rw [numGets_append, numGets_joinN,
    show numGets [Action.sleepMs 500] = 0 from rfl]
  omega

theorem readiness_loop_witness :
    (numSleeps (pollLoop iterNever "http://127.0.0.1:3000" 60 0 (some 9)).2.2 ≤ 60 ∧
     numGets (pollLoop iterNever "http://127.0.0.1:3000" 60 0 (some 9)).2.2 ≤ 60 ∧
     sleeps500 (pollLoop iterNever "http://127.0.0.1:3000" 60 0 (some 9)).2.2 = true) ∧
    (pollLoop iterExit "http://127.0.0.1:3000" 60 0 (some 9) =
       (.exited 1, none,
        joinN 2 (contActs "http://127.0.0.1:3000") ++ [Action.sleepMs 500]) ∧
     numGets (joinN 2 (contActs "http://127.0.0.1:3000") ++ [Action.sleepMs 500]) = 2) ∧
    (pollLoop iterReady "http://127.0.0.1:3000" 60 0 (some 9) =
       (.ready "bitnet" 3, some 9,
        joinN 2 (contActs "http://127.0.0.1:3000") ++ contActs "http://127.0.0.1:3000")) ∧
    (pollLoop iterNever "http://127.0.0.1:3000" 60 0 (some 9) =
       (.timeout, some 9, joinN 60 (contActs "http://127.0.0.1:3000"))) :=
  ⟨(readiness_loop iterNever "http://127.0.0.1:3000" 9).1 (some 9),
   (readiness_loop iterExit "http://127.0.0.1:3000" 9).2.1 2 1 (by decide)
     (fun j hj => by interval_cases j <;> exact ⟨rfl, rfl⟩) rfl,
   (readiness_loop iterReady "http://127.0.0.1:3000" 9).2.2.1 2
     { backend := some "bitnet"
       version := some "0.1.0"
       models_count := some 3
       llama_cli_available := some true }
     (by decide) (fun j hj => by interval_cases j <;> exact ⟨rfl, rfl⟩) rfl rfl,
   (readiness_loop iterNever "http://127.0.0.1:3000" 9).2.2.2
     (fun _ _ => ⟨rfl, rfl⟩)⟩

/-- C3: when no readiness attempt succeeds within the 60-attempt budget,
`start_node` fails with the timeout message, and the trace shows the
spawned process killed and reaped before the error is returned; NodeState
is left consistent and not-running — handle cleared, running still false,
start timestamp unset — so any subsequent `get_node_status` returns the
canonical not-running record with zero network calls. -/
theorem start_timeout_cleanup (st : AriaState) (env : StartEnv)
    (pid : Nat) (python : String)
    (hrun : st.node_running = false) (hstart : st.start_time = none)
    (hpy : env.findPython = some python) (haria : env.ariaOk = true)
    (hspawn : env.spawnRes = Except.ok pid)
    (hiter : ∀ j, j < 60 → aliveNotReady (env.iter j)) :
    start_node st env =
      (.error startTimeoutMsg,
       { st with python_process := none },
       Action.spawn pid ::
         (joinN 60 (contActs (apiBaseOf st.api_port)) ++
          [Action.kill, Action.wait])) ∧
    ({ st with python_process := none } : AriaState).node_running = false ∧
    ({ st with python_process := none } : AriaState).start_time = none ∧
    ∀ (now2 : Nat) (resp2 : SendResult StatusBody),
      get_node_status { st with python_process := none } now2 resp2 =
        (.ok notRunningStatus, []) := by
  refine ⟨?_, by simpa using hrun, by simpa using hstart, fun now2 resp2 => ?_⟩
  · unfold start_node
    rw [hrun, hpy, haria, hspawn]
    simp only [Bool.not_true, Bool.false_eq_true, if_false]
    rw [pollLoop_timeout env.iter (apiBaseOf st.api_port) pid hiter]
    simp [kill_python_process]
  · unfold get_node_status
    simp [hrun]

theorem start_timeout_cleanup_witness :
    start_node AriaState.default envNever =
      (.error startTimeoutMsg,
       { AriaState.default with python_process := none },
       Action.spawn 9 ::
         (joinN 60 (contActs (apiBaseOf 3000)) ++
          [Action.kill, Action.wait])) ∧
    get_node_status { AriaState.default with python_process := none } 0
        (.err "probe") = (.ok notRunningStatus, []) :=
  ⟨(start_timeout_cleanup AriaState.default envNever 9 "python" rfl rfl rfl rfl
      rfl (fun _ _ => ⟨rfl, rfl⟩)).1,
   (start_timeout_cleanup AriaState.default envNever 9 "python" rfl rfl rfl rfl
      rfl (fun _ _ => ⟨rfl, rfl⟩)).2.2.2 0 (.err "probe")⟩

end Aria
